import Mathlib

/-!
Shallow embedding of `src/bot.py` (a Telegram daily-practice bot) and
verification of its specified properties.

The bot's own logic lives in `bot.py`; the `database` module it imports is
not part of the sources, so its four point operations are modelled from the
spec (each such definition says so in its doc comment).

A Python `str` is modelled as its character sequence `PyStr := List Char`,
so that every string operation the bot uses is structurally recursive and
computable by the kernel: `str.strip` is `pyStrip`, `str.lower` is
`pyLower`, and `text.split('||')` — the only split the bot performs — is
`splitOnBars`.  `pychars` injects a Lean string literal into the model.
-/

namespace TeleBot

/-- A Python `str`, as its sequence of characters. -/
abbrev PyStr := List Char

/-- The character sequence of a string literal. -/
def pychars (s : String) : PyStr := s.data

/-- Python's `str.strip()` with no argument: drop whitespace from both
ends. -/
def pyStrip (s : PyStr) : PyStr :=
  ((s.dropWhile Char.isWhitespace).reverse.dropWhile Char.isWhitespace).reverse

/-- Python's `str.lower()` (the bot only compares ASCII answers). -/
def pyLower (s : PyStr) : PyStr := s.map Char.toLower

/-- Python's `text.split('||')`: split on every non-overlapping occurrence
of the two-character separator `'||'`, scanning left to right and keeping
empty chunks, so the result always has at least one element. -/
def splitOnBars : PyStr → List PyStr
  | [] => [[]]
  | '|' :: '|' :: rest => [] :: splitOnBars rest
  | c :: rest =>
    match splitOnBars rest with
    | [] => [[c]]
    | h :: t => (c :: h) :: t

/-- A content item as stored in the JSON collections (`grammar.json`,
`puzzles.json`, ...): a prompt, an optional `answer` field, an optional
difficulty `level` tag and an optional `id`.  Fields that only feed the
displayed text (word/meaning/example/lesson text) are summarised by `q`. -/
structure ContentItem where
  q : PyStr
  answer : Option PyStr
  level : Option PyStr
  id : Option Nat
deriving Repr, DecidableEq

/-- Python's `str(x)` applied to an optional string: `str(None)` is the
four-character string "None", `str(s) = s` for a string `s`. -/
def pyStr : Option PyStr → PyStr
  | none => pychars "None"
  | some s => s

/-- The filter predicate of `choose_for_level` (src/bot.py line 32): an
item passes iff it has no `level` tag or its tag equals the requested
level. -/
def levelCompatible (i : ContentItem) (level : PyStr) : Bool :=
  i.level.isNone || i.level == some level

/-- `choose_for_level(items, level)` from src/bot.py lines 30-35:
`filtered = [i for i in items if ('level' not in i) or (i['level'] == level)]`,
falling back to the whole collection when `filtered` is empty, then
`random.choice(filtered)`.  The random draw is modelled by the index `k`
taken modulo the pool size; `random.choice` raises on an empty list, which
is modelled by `none`. -/
def choose_for_level (items : List ContentItem) (level : PyStr) (k : Nat) :
    Option ContentItem :=
  let filtered := items.filter (fun i => levelCompatible i level)
  let pool := if filtered.isEmpty then items else filtered
  pool.get? (k % pool.length)

/-- The transient `pending_answers` dict stored by `daily_cmd`: always
carries both keys, each holding the chosen item's optional `answer`
field. -/
structure PendingAnswers where
  grammar : Option PyStr
  puzzle : Option PyStr
deriving Repr, DecidableEq

/-- The transient `pending_ids` dict stored by `daily_cmd`. -/
structure PendingIds where
  grammar_id : Option Nat
  puzzle_id : Option Nat
deriving Repr, DecidableEq

/-- The `answers` component of `format_daily_payload` (src/bot.py lines
56-59): `{"grammar": g.get('answer'), "puzzle": p.get('answer')}` for the
chosen grammar item `g` and puzzle item `p`. -/
def payload_answers (g p : ContentItem) : PendingAnswers :=
  { grammar := g.answer, puzzle := p.answer }

/-- One user row of the `users` table: the tuple positions used by bot.py
are `user[2] = level`, `user[3] = score`, `user[4] = streak`; `last_active`
is modelled as an abstract day number. -/
structure UserRecord where
  username : PyStr
  level : PyStr
  score : Nat
  streak : Nat
  last_active : Nat
deriving Repr, DecidableEq

/-- Modelled from the spec: `database.increment_score(uid, gained)` — the
user-record store's "increment score" point operation adds `gained` to the
cumulative score. -/
def increment_score (u : UserRecord) (gained : Nat) : UserRecord :=
  { u with score := u.score + gained }

/-- Modelled from the spec: `database.set_level_by_score(uid)` — "recompute
level from score thresholds": the level becomes the value of the fixed
score-threshold function `lvlOf` at the user's current score.  The spec
fixes no numeric thresholds, so theorems quantify over `lvlOf`. -/
def set_level_by_score (lvlOf : Nat → PyStr) (u : UserRecord) : UserRecord :=
  { u with level := lvlOf u.score }

/-- Modelled from the spec: `database.update_last_active_and_streak(uid)` —
"update streak based on elapsed time since last activity"; per the
glossary the streak is incremented when last-active advances by exactly one
day and reset otherwise (a same-day reply leaves it unchanged).  Returns
the updated record together with the new streak value. -/
def update_last_active_and_streak (today : Nat) (u : UserRecord) :
    UserRecord × Nat :=
  let s :=
    if today = u.last_active + 1 then u.streak + 1
    else if today = u.last_active then u.streak
    else 0
  ({ u with streak := s, last_active := today }, s)

/-- Modelled from the spec: a concrete instance of the fixed score-threshold
level function over the closed set Beginner/Intermediate/Advanced, used
only to evaluate theorems at concrete inputs (the spec names no numeric
thresholds; all general theorems hold for every threshold function). -/
def levelOfScoreDefault (score : Nat) : PyStr :=
  if score < 10 then pychars "Beginner"
  else if score < 30 then pychars "Intermediate"
  else pychars "Advanced"

/-- The comparison `check_answer` applies to one submitted token and the
stored answer for that part (src/bot.py lines 109, 111):
`submitted.lower() == str(stored).lower()`.  The submitted token has
already been stripped by the list comprehension on line 101; the stored
answer is stringified and lowercased but not stripped. -/
def answerMatch (submitted : PyStr) (stored : Option PyStr) : Bool :=
  pyLower submitted == pyLower (pyStr stored)

/-- The per-chat state `check_answer` reads and writes: the user's row and
the transient `context.user_data` entries. -/
structure ChatState where
  user : UserRecord
  pending : Option PendingAnswers
  pendingIds : Option PendingIds
deriving Repr, DecidableEq

/-- The visible outcome of `check_answer`: which reply was sent, and with
which numbers when it is the scored summary. -/
inductive Reply where
  | noActiveQuiz
  | formatWrong
  | scored (gained total : Nat) (level : PyStr) (streak : Nat)
deriving Repr, DecidableEq

/-- The gained-points figure announced by a scored reply, if any. -/
def Reply.gained : Reply → Option Nat
  | .scored g _ _ _ => some g
  | _ => none

/-- Result of one `check_answer` call: the updated chat state and the reply
sent. -/
structure CheckResult where
  state : ChatState
  reply : Reply
deriving Repr, DecidableEq

/-- `check_answer(update, context)` from src/bot.py lines 96-122, with the
inbound message text and today's date made explicit.  Mirrors the source
line by line: strip the text; bail out with "No active quiz found." when
`pending_answers` is absent; split on `'||'` and strip each part; bail out
with the format message when fewer than two parts; compare each of the
first two parts against the stored answers; on a positive gain increment
the score and recompute the level; update streak and last-active, recompute
the level again, send the summary, and clear the pending entries. -/
def check_answer (lvlOf : Nat → PyStr) (today : Nat) (st : ChatState)
    (rawText : PyStr) : CheckResult :=
  let text := pyStrip rawText
  match st.pending with
  | none => ⟨st, .noActiveQuiz⟩
  | some correct =>
    let parts := (splitOnBars text).map pyStrip
    if parts.length < 2 then ⟨st, .formatWrong⟩
    else
      let grammar_ans := parts.getD 0 []
      let puzzle_ans := parts.getD 1 []
      let gained : Nat := 0
      let gained := if answerMatch grammar_ans correct.grammar then gained + 1 else gained
      let gained := if answerMatch puzzle_ans correct.puzzle then gained + 1 else gained
      let u := st.user
      let u := if gained > 0 then set_level_by_score lvlOf (increment_score u gained) else u
      let p := update_last_active_and_streak today u
      let u := set_level_by_score lvlOf p.1
      ⟨⟨u, none, none⟩, .scored gained u.score u.level p.2⟩

/-- The scored branch of `check_answer` factored out over the two stripped
tokens `ga` (grammar part) and `pa` (puzzle part): the same sequence of
operations as src/bot.py lines 106-120, proved below to coincide with
`check_answer` whenever a pending quiz exists and the reply is
well-formed. -/
def scoredOutcome (lvlOf : Nat → PyStr) (today : Nat) (u : UserRecord)
    (c : PendingAnswers) (ga pa : PyStr) : CheckResult :=
  let gained : Nat := 0
  let gained := if answerMatch ga c.grammar then gained + 1 else gained
  let gained := if answerMatch pa c.puzzle then gained + 1 else gained
  let u := if gained > 0 then set_level_by_score lvlOf (increment_score u gained) else u
  let p := update_last_active_and_streak today u
  let u := set_level_by_score lvlOf p.1
  ⟨⟨u, none, none⟩, .scored gained u.score u.level p.2⟩

/-- Outcome of attempting one delivery in the broadcast: success, or the
exception message Python would raise (a network failure from
`bot.send_message`, or a failure inside `format_daily_payload`). -/
def deliveryOk (r : Except String Unit) : Bool :=
  match r with
  | .ok _ => true
  | .error _ => false

/-- `send_daily_to_all` from src/bot.py lines 147-169: iterate over all
user ids from the `users` table; for each, build the payload and send it
inside `try`, logging the exception message on failure and moving on.  The
effectful attempt (payload generation plus `bot.send_message`) is the
oracle `attempt`; the result collects the successfully delivered ids and
the logged `(uid, message)` failures, each user attempted exactly once and
in order. -/
def send_daily_to_all (users : List Nat) (attempt : Nat → Except String Unit) :
    List Nat × List (Nat × String) :=
  match users with
  | [] => ([], [])
  | uid :: rest =>
    let tail := send_daily_to_all rest attempt
    match attempt uid with
    | .ok _ => (uid :: tail.1, tail.2)
    | .error e => (tail.1, (uid, e) :: tail.2)

/-- `load_json(fname)` from src/bot.py lines 20-22:
`with open(fname) as f: return json.load(f)`.  `json.load` either returns
the parsed value or raises on malformed input; `parsed` is that outcome
(`none` = parse failure).  The function body has no exception handler, so
a parse failure propagates out of `load_json` (modelled as `.error`) and,
since the four collections are loaded at module top level, aborts startup. -/
def load_json (parsed : Option (List ContentItem)) :
    Except String (List ContentItem) :=
  match parsed with
  | some items => .ok items
  | none => .error "json.decoder.JSONDecodeError"

/-- The spec's notion of token correctness for claim C3, following its
words: "the stored correct answers and the user's submitted tokens are
compared case-insensitively as exact strings after trimming" — i.e. BOTH
sides stripped, then lowercased, then compared for equality. -/
def specTokenCorrect (submitted stored : PyStr) : Bool :=
  pyLower (pyStrip submitted) == pyLower (pyStrip stored)

/-- Concrete grammar item tagged "Beginner", for counterexamples. -/
def itemTagged : ContentItem :=
  { q := pychars "q1", answer := some (pychars "A")
  , level := some (pychars "Beginner"), id := some 1 }

/-- Concrete untagged grammar item, for counterexamples. -/
def itemUntagged : ContentItem :=
  { q := pychars "q2", answer := some (pychars "B")
  , level := none, id := some 2 }

/-- A fresh user record for concrete evaluations. -/
def userC : UserRecord :=
  { username := pychars "u", level := pychars "Beginner"
  , score := 0, streak := 0, last_active := 0 }

/-- Chat state with a pending quiz whose stored grammar answer carries a
leading space, for the C3 counterexample. -/
def stC3 : ChatState :=
  { user := userC
  , pending := some { grammar := some (pychars " b"), puzzle := some (pychars "x") }
  , pendingIds := some { grammar_id := some 1, puzzle_id := some 2 } }

/-- Chat state with an ordinary pending quiz (`grammar = "b"`,
`puzzle = "cat"`), for concrete evaluations. -/
def stQuiz : ChatState :=
  { user := userC
  , pending := some { grammar := some (pychars "b"), puzzle := some (pychars "cat") }
  , pendingIds := some { grammar_id := some 1, puzzle_id := some 2 } }

/-- Chat state with no pending quiz, for the C6 witness. -/
def stNoQuiz : ChatState :=
  { user := userC, pending := none, pendingIds := none }

/-! ### Evaluation lemmas for `check_answer` -/

/-- With no pending quiz, `check_answer` answers "No active quiz found."
and returns without touching anything. -/
theorem check_answer_none (lvlOf : Nat → PyStr) (today : Nat) (st : ChatState)
    (rawText : PyStr) (hp : st.pending = none) :
    check_answer lvlOf today st rawText = ⟨st, .noActiveQuiz⟩ := by
  obtain ⟨u0, pnd, ids⟩ := st
  simp only at hp
  subst hp
  rfl

/-- With a pending quiz but fewer than two `'||'`-separated parts,
`check_answer` answers with the format message and returns without
touching anything. -/
theorem check_answer_malformed (lvlOf : Nat → PyStr) (today : Nat)
    (st : ChatState) (c : PendingAnswers) (rawText : PyStr)
    (hp : st.pending = some c)
    (hlen : (splitOnBars (pyStrip rawText)).length < 2) :
    check_answer lvlOf today st rawText = ⟨st, .formatWrong⟩ := by
  obtain ⟨u0, pnd, ids⟩ := st
  simp only at hp
  subst hp
  simp only [check_answer]
  rw [if_pos]
  simpa using hlen

/-- With a pending quiz and a reply splitting into at least two parts,
`check_answer` runs the scored branch on the first two stripped parts. -/
theorem check_answer_scored_eval (lvlOf : Nat → PyStr) (today : Nat)
    (st : ChatState) (c : PendingAnswers) (rawText : PyStr) (a b : PyStr)
    (rest : List PyStr) (hp : st.pending = some c)
    (hs : splitOnBars (pyStrip rawText) = a :: b :: rest) :
    check_answer lvlOf today st rawText =
      scoredOutcome lvlOf today st.user c (pyStrip a) (pyStrip b) := by
  obtain ⟨u0, pnd, ids⟩ := st
  simp only at hp
  subst hp
  simp only [check_answer, hs, List.map_cons, List.length_cons, scoredOutcome]
  rw [if_neg (by omega)]
  rfl

/-- The cumulative score after the scored branch is the old score plus the
points gained from the two comparisons. -/
theorem scoredOutcome_score (lvlOf : Nat → PyStr) (today : Nat)
    (u : UserRecord) (c : PendingAnswers) (ga pa : PyStr) :
    (scoredOutcome lvlOf today u c ga pa).state.user.score =
      u.score + ((if answerMatch ga c.grammar then 1 else 0) +
        (if answerMatch pa c.puzzle then 1 else 0)) := by
  cases h1 : answerMatch ga c.grammar <;> cases h2 : answerMatch pa c.puzzle <;>
    simp [scoredOutcome, set_level_by_score, increment_score,
      update_last_active_and_streak, h1, h2]

/-- The gained figure announced by the scored branch. -/
theorem scoredOutcome_gained (lvlOf : Nat → PyStr) (today : Nat)
    (u : UserRecord) (c : PendingAnswers) (ga pa : PyStr) :
    (scoredOutcome lvlOf today u c ga pa).reply.gained =
      some ((if answerMatch ga c.grammar then 1 else 0) +
        (if answerMatch pa c.puzzle then 1 else 0)) := by
  cases h1 : answerMatch ga c.grammar <;> cases h2 : answerMatch pa c.puzzle <;>
    simp [scoredOutcome, Reply.gained, h1, h2]

/-- After the scored branch, the stored level is the threshold function
applied to the stored score. -/
theorem scoredOutcome_level (lvlOf : Nat → PyStr) (today : Nat)
    (u : UserRecord) (c : PendingAnswers) (ga pa : PyStr) :
    (scoredOutcome lvlOf today u c ga pa).state.user.level =
      lvlOf ((scoredOutcome lvlOf today u c ga pa).state.user.score) := by
  simp [scoredOutcome, set_level_by_score]

/-! ### Claims -/

/-- C1: for every well-formed reply (splitting into at least two
`'||'`-separated parts) submitted while a pending quiz exists,
`check_answer` increases the stored score by exactly 2 when both the
grammar part and the puzzle part match the stored answers, by exactly 1
when exactly one matches, and by 0 when neither matches. -/
theorem C1_score_gain (lvlOf : Nat → PyStr) (today : Nat) (st : ChatState)
    (c : PendingAnswers) (rawText a b : PyStr) (rest : List PyStr)
    (hp : st.pending = some c)
    (hs : splitOnBars (pyStrip rawText) = a :: b :: rest) :
    (answerMatch (pyStrip a) c.grammar = true → answerMatch (pyStrip b) c.puzzle = true →
      (check_answer lvlOf today st rawText).state.user.score = st.user.score + 2) ∧
    (answerMatch (pyStrip a) c.grammar = true → answerMatch (pyStrip b) c.puzzle = false →
      (check_answer lvlOf today st rawText).state.user.score = st.user.score + 1) ∧
    (answerMatch (pyStrip a) c.grammar = false → answerMatch (pyStrip b) c.puzzle = true →
      (check_answer lvlOf today st rawText).state.user.score = st.user.score + 1) ∧
    (answerMatch (pyStrip a) c.grammar = false → answerMatch (pyStrip b) c.puzzle = false →
      (check_answer lvlOf today st rawText).state.user.score = st.user.score) := by
  rw [check_answer_scored_eval lvlOf today st c rawText a b rest hp hs]
  refine ⟨?_, ?_, ?_, ?_⟩ <;> intro h1 h2 <;>
    rw [scoredOutcome_score] <;> simp [h1, h2]

/-- Witness for C1: user replies "B || cat" to a quiz whose stored answers
are "b" and "cat"; both parts match and the score rises from 0 by 2. -/
theorem C1_score_gain_witness :
    answerMatch (pyStrip (pychars "B ")) (some (pychars "b")) = true ∧
    answerMatch (pyStrip (pychars " cat")) (some (pychars "cat")) = true ∧
    (check_answer levelOfScoreDefault 0 stQuiz (pychars "B || cat")).state.user.score =
      stQuiz.user.score + 2 :=
  ⟨by decide, by decide,
    (C1_score_gain levelOfScoreDefault 0 stQuiz ⟨some (pychars "b"), some (pychars "cat")⟩
      (pychars "B || cat") (pychars "B ") (pychars " cat") [] rfl
      (by decide)).1 (by decide) (by decide)⟩

/-- C2: after every scoring event processed by `check_answer` (pending quiz
present, well-formed reply), the stored level equals the score-threshold
function applied to the stored score. -/
theorem C2_level_matches_threshold (lvlOf : Nat → PyStr) (today : Nat)
    (st : ChatState) (c : PendingAnswers) (rawText a b : PyStr)
    (rest : List PyStr) (hp : st.pending = some c)
    (hs : splitOnBars (pyStrip rawText) = a :: b :: rest) :
    (check_answer lvlOf today st rawText).state.user.level =
      lvlOf ((check_answer lvlOf today st rawText).state.user.score) := by
  rw [check_answer_scored_eval lvlOf today st c rawText a b rest hp hs]
  exact scoredOutcome_level lvlOf today st.user c (pyStrip a) (pyStrip b)

/-- Witness for C2: after the reply "B || cat" the stored level is the
threshold function at the new score. -/
theorem C2_level_matches_threshold_witness :
    (check_answer levelOfScoreDefault 0 stQuiz (pychars "B || cat")).state.user.level =
      levelOfScoreDefault
        ((check_answer levelOfScoreDefault 0 stQuiz (pychars "B || cat")).state.user.score) :=
  C2_level_matches_threshold levelOfScoreDefault 0 stQuiz
    ⟨some (pychars "b"), some (pychars "cat")⟩
    (pychars "B || cat") (pychars "B ") (pychars " cat") [] rfl (by decide)

/-- C3 counterexample: the claim says both sides of the comparison are
trimmed, so the submitted grammar token "b" would count as correct against
the stored answer " b" (`specTokenCorrect` is the claim's comparison); but
`check_answer` lowercases without trimming the stored side and awards 0
points on this reply. -/
theorem C3_counterexample :
    specTokenCorrect (pychars "b") (pychars " b") = true ∧
    stC3.pending = some { grammar := some (pychars " b"), puzzle := some (pychars "x") } ∧
    (check_answer levelOfScoreDefault 0 stC3 (pychars "b || y")).reply =
      .scored 0 0 (pychars "Beginner") 0 := by
  refine ⟨by decide, rfl, by decide⟩

/-- C3 amended: each submitted token is trimmed and lowercased, while the
stored answer is stringified and lowercased but NOT trimmed; a part counts
as correct (contributes one gained point) iff these two strings are
exactly equal. -/
theorem C3_trimmed_token_match (lvlOf : Nat → PyStr) (today : Nat)
    (st : ChatState) (c : PendingAnswers) (rawText a b : PyStr)
    (rest : List PyStr) (hp : st.pending = some c)
    (hs : splitOnBars (pyStrip rawText) = a :: b :: rest) :
    (check_answer lvlOf today st rawText).reply.gained =
      some ((if pyLower (pyStrip a) == pyLower (pyStr c.grammar) then 1 else 0) +
        (if pyLower (pyStrip b) == pyLower (pyStr c.puzzle) then 1 else 0)) := by
  rw [check_answer_scored_eval lvlOf today st c rawText a b rest hp hs]
  simpa [answerMatch] using
    scoredOutcome_gained lvlOf today st.user c (pyStrip a) (pyStrip b)

/-- Witness for the amended C3: on the reply "b || y" against stored
answers " b" and "x", the gained figure is the one predicted by the
trim-submitted-only comparison (here 0). -/
theorem C3_trimmed_token_match_witness :
    (check_answer levelOfScoreDefault 0 stC3 (pychars "b || y")).reply.gained =
      some ((if pyLower (pyStrip (pychars "b ")) == pyLower (pyStr (some (pychars " b")))
          then 1 else 0) +
        (if pyLower (pyStrip (pychars " y")) == pyLower (pyStr (some (pychars "x")))
          then 1 else 0)) :=
  C3_trimmed_token_match levelOfScoreDefault 0 stC3
    ⟨some (pychars " b"), some (pychars "x")⟩
    (pychars "b || y") (pychars "b ") (pychars " y") [] rfl (by decide)

/-- C4 counterexample: the collection holds an item tagged "Beginner", yet
`choose_for_level` (draw index 1) returns the untagged item, which is not
tagged with the requested level — the filter also admits untagged items,
so the claim as stated is false. -/
theorem C4_counterexample :
    itemTagged ∈ [itemTagged, itemUntagged] ∧
    itemTagged.level = some (pychars "Beginner") ∧
    choose_for_level [itemTagged, itemUntagged] (pychars "Beginner") 1 =
      some itemUntagged ∧
    itemUntagged.level ≠ some (pychars "Beginner") := by
  refine ⟨by decide, rfl, by decide, by decide⟩

/-- C4 amended: whenever at least one item is compatible with the level
(untagged, or tagged with exactly that level), `choose_for_level` returns
a compatible item; only when no compatible item exists may it return an
arbitrary item of the collection. -/
theorem C4_choose_compatible (items : List ContentItem) (level : PyStr)
    (k : Nat) (r : ContentItem)
    (hex : ∃ i ∈ items, levelCompatible i level = true)
    (hr : choose_for_level items level k = some r) :
    levelCompatible r level = true := by
  obtain ⟨i, hi, hci⟩ := hex
  simp only [choose_for_level] at hr
  have hne : items.filter (fun j => levelCompatible j level) ≠ [] := by
    intro h
    rw [List.filter_eq_nil_iff] at h
    exact absurd hci (by simpa using h i hi)
  rw [if_neg (by simpa [List.isEmpty_iff] using hne)] at hr
  have hrmem : r ∈ items.filter (fun j => levelCompatible j level) :=
    List.get?_mem hr
  exact (List.mem_filter.mp hrmem).2

/-- Witness for the amended C4: with one "Beginner"-tagged and one untagged
item both compatible, the drawn item (index 0) is compatible. -/
theorem C4_choose_compatible_witness :
    (∃ i ∈ [itemTagged, itemUntagged], levelCompatible i (pychars "Beginner") = true) ∧
    choose_for_level [itemTagged, itemUntagged] (pychars "Beginner") 0 =
      some itemTagged ∧
    levelCompatible itemTagged (pychars "Beginner") = true :=
  ⟨by decide, by decide,
    C4_choose_compatible [itemTagged, itemUntagged] (pychars "Beginner") 0 itemTagged
      (by decide) (by decide)⟩

/-- C5: a reply that does not split into at least two `'||'`-separated
parts, submitted while a pending quiz exists, gets the format-correction
message, and the whole chat state — pending answers, pending ids and the
stored user record — is returned unchanged. -/
theorem C5_malformed_keeps_state (lvlOf : Nat → PyStr) (today : Nat)
    (st : ChatState) (c : PendingAnswers) (rawText : PyStr)
    (hp : st.pending = some c)
    (hlen : (splitOnBars (pyStrip rawText)).length < 2) :
    check_answer lvlOf today st rawText = ⟨st, .formatWrong⟩ :=
  check_answer_malformed lvlOf today st c rawText hp hlen

/-- Witness for C5: the separator-free reply "hello" against a pending quiz
leaves the state untouched and draws the format message. -/
theorem C5_malformed_keeps_state_witness :
    (splitOnBars (pyStrip (pychars "hello"))).length < 2 ∧
    check_answer levelOfScoreDefault 0 stQuiz (pychars "hello") =
      ⟨stQuiz, .formatWrong⟩ :=
  ⟨by decide,
    C5_malformed_keeps_state levelOfScoreDefault 0 stQuiz
      ⟨some (pychars "b"), some (pychars "cat")⟩ (pychars "hello") rfl (by decide)⟩

/-- C6: a reply submitted with no pending quiz (no `pending_answers` entry)
gets the "no active quiz" message and mutates nothing: the returned chat
state, user record included, is exactly the input state. -/
theorem C6_no_quiz_keeps_state (lvlOf : Nat → PyStr) (today : Nat)
    (st : ChatState) (rawText : PyStr) (hp : st.pending = none) :
    check_answer lvlOf today st rawText = ⟨st, .noActiveQuiz⟩ :=
  check_answer_none lvlOf today st rawText hp

/-- Witness for C6: with no pending quiz, a well-formed reply changes
nothing. -/
theorem C6_no_quiz_keeps_state_witness :
    check_answer levelOfScoreDefault 0 stNoQuiz (pychars "b || cat") =
      ⟨stNoQuiz, .noActiveQuiz⟩ :=
  C6_no_quiz_keeps_state levelOfScoreDefault 0 stNoQuiz (pychars "b || cat") rfl

/-- C7: the broadcast attempts every known user exactly once, in order; the
delivered list is exactly the users whose attempt succeeded, the failure
log is exactly the users whose attempt failed (caught and logged, never
retried, never aborting the loop), and with M failures among N users
exactly N − M are delivered. -/
theorem C7_broadcast_isolated (users : List Nat)
    (attempt : Nat → Except String Unit) :
    (send_daily_to_all users attempt).1 =
      users.filter (fun u => deliveryOk (attempt u)) ∧
    (send_daily_to_all users attempt).2.map Prod.fst =
      users.filter (fun u => !deliveryOk (attempt u)) ∧
    (send_daily_to_all users attempt).1.length +
      (send_daily_to_all users attempt).2.length = users.length ∧
    (send_daily_to_all users attempt).1.length =
      users.length - (send_daily_to_all users attempt).2.length := by
  induction users with
  | nil => simp [send_daily_to_all]
  | cons uid rest ih =>
    obtain ⟨h1, h2, h3, h4⟩ := ih
    cases hA : attempt uid with
    | ok v =>
      refine ⟨?_, ?_, ?_, ?_⟩
      · simp [send_daily_to_all, hA, List.filter_cons, deliveryOk, h1]
      · simp [send_daily_to_all, hA, List.filter_cons, deliveryOk, h2]
      · simp only [send_daily_to_all, hA, List.length_cons]
        omega
      · simp only [send_daily_to_all, hA, List.length_cons]
        omega
    | error e =>
      refine ⟨?_, ?_, ?_, ?_⟩
      · simp [send_daily_to_all, hA, List.filter_cons, deliveryOk, h1]
      · simp [send_daily_to_all, hA, List.filter_cons, deliveryOk, h2]
      · simp only [send_daily_to_all, hA, List.length_cons]
        omega
      · simp only [send_daily_to_all, hA, List.length_cons]
        omega

/-- C8 counterexample: `load_json` has no exception handler, so on a
malformed file (the parse oracle yields `none`) it propagates the parse
error; it does not degrade to the empty collection. -/
theorem C8_counterexample : load_json none ≠ Except.ok ([] : List ContentItem) :=
  fun h => Except.noConfusion h

/-- C8 amended: a malformed content file makes `load_json` propagate the
parse failure (aborting startup, since the collections load at module top
level); a parsed file is returned as-is, so an empty collection can only
come from a file that genuinely parses to an empty list. -/
theorem C8_parse_error_propagates :
    load_json none = Except.error "json.decoder.JSONDecodeError" ∧
    ∀ items : List ContentItem, load_json (some items) = Except.ok items :=
  ⟨rfl, fun _ => rfl⟩

/-- C9: only the first two `'||'`-separated parts of a reply matter: two
replies whose first two stripped parts coincide produce identical results
(same reply sent, same state update), regardless of any further parts. -/
theorem C9_extra_parts_ignored (lvlOf : Nat → PyStr) (today : Nat)
    (st : ChatState) (t1 t2 a1 b1 a2 b2 : PyStr)
    (rest1 rest2 : List PyStr)
    (h1 : splitOnBars (pyStrip t1) = a1 :: b1 :: rest1)
    (h2 : splitOnBars (pyStrip t2) = a2 :: b2 :: rest2)
    (ha : pyStrip a1 = pyStrip a2) (hb : pyStrip b1 = pyStrip b2) :
    check_answer lvlOf today st t1 = check_answer lvlOf today st t2 := by
  cases hp : st.pending with
  | none =>
    rw [check_answer_none lvlOf today st t1 hp, check_answer_none lvlOf today st t2 hp]
  | some c =>
    rw [check_answer_scored_eval lvlOf today st c t1 a1 b1 rest1 hp h1,
      check_answer_scored_eval lvlOf today st c t2 a2 b2 rest2 hp h2, ha, hb]

/-- Witness for C9: "a || b || c || d" and "a || b" give identical
results — the third and fourth parts are ignored. -/
theorem C9_extra_parts_ignored_witness :
    check_answer levelOfScoreDefault 0 stQuiz (pychars "a || b || c || d") =
      check_answer levelOfScoreDefault 0 stQuiz (pychars "a || b") :=
  C9_extra_parts_ignored levelOfScoreDefault 0 stQuiz
    (pychars "a || b || c || d") (pychars "a || b")
    (pychars "a ") (pychars " b ") (pychars "a ") (pychars " b")
    [pychars " c ", pychars " d"] []
    (by decide) (by decide) (by decide) (by decide)

/-- C10: when the selected grammar item has no `answer` field, the pending
answer stored for that part by `format_daily_payload` is `None`, and under
`check_answer`'s comparison a submitted token counts as correct for that
part exactly when it equals "none" case-insensitively (`str(None)` is
"None"). -/
theorem C10_none_answer (g p : ContentItem) (tok : PyStr)
    (hg : g.answer = none) :
    (payload_answers g p).grammar = none ∧
    answerMatch tok (payload_answers g p).grammar =
      (pyLower tok == pychars "none") := by
  have hN : pyLower (pychars "None") = pychars "none" := by decide
  refine ⟨by simp [payload_answers, hg], ?_⟩
  simp [payload_answers, hg, answerMatch, pyStr, hN]

/-- Witness for C10: a grammar item without an answer field stores `none`,
and the token "NoNe" lowercases to "none", so it counts as correct. -/
theorem C10_none_answer_witness :
    (payload_answers
        { q := pychars "q", answer := none, level := none, id := none }
        itemUntagged).grammar = none ∧
    answerMatch (pychars "NoNe")
        (payload_answers
          { q := pychars "q", answer := none, level := none, id := none }
          itemUntagged).grammar =
      (pyLower (pychars "NoNe") == pychars "none") :=
  C10_none_answer
    { q := pychars "q", answer := none, level := none, id := none }
    itemUntagged (pychars "NoNe") rfl

end TeleBot
